import Mathlib

/-!
Shallow embedding of the clinical-note pipeline and comparison engine of the
doctor_voice_assistant_fe repository, together with theorems settling the
frozen claims about it.

Modelling conventions:
* External network calls (embedding service, LLM chat completions, retrieval)
  are passed in as oracle parameters; a fallible call is an `Except Unit _`
  value, where `Except.error` stands for the call (or the JSON parse wrapped
  in the same try/catch) throwing.
* JavaScript numbers are modelled as exact rationals `ℚ`; `Math.round` is
  `jsRound` (round half toward positive infinity, as JS does).
* JavaScript string operations are modelled over `String.data` character
  lists so that concrete instances evaluate by kernel reduction.
-/

/-- SOAP note record (source: `SoapNote` interface, comparison module and
`state.ts`). -/
structure SoapNote where
  subjective : String
  objective : String
  assessment : String
  plan : String
deriving DecidableEq, Repr

/-- JS `Math.round`: round half toward positive infinity. -/
def jsRound (x : ℚ) : ℤ := ⌊x + 1/2⌋

/-- Character-level rendering of the source's
`c.split('-')[0].split(' ')[0].trim()`: the prefix before the first `'-'`,
then the prefix before the first `' '`, then trim surrounding whitespace.
`split(sep)[0]` is exactly the longest prefix free of `sep`, and `trim`
drops whitespace from both ends. -/
def cleanCode (c : String) : String :=
  String.mk
    (((((c.data.takeWhile (fun ch => ch ≠ '-')).takeWhile
        (fun ch => ch ≠ ' ')).dropWhile Char.isWhitespace).reverse.dropWhile
        Char.isWhitespace).reverse)

/-- Source: `calculateTextSimilarity`.  The external
`embeddings.embedDocuments` call followed by the pure `cosineSimilarity` of
the two returned vectors is abstracted as the oracle `embed` (the vectors
exist only on the external service's side); `Except.error` is the call
throwing, handled by the function's own catch block, which returns 0.
JS string falsiness (`!text1`) is emptiness.  The clamp mirrors
`Math.max(0, Math.min(100, similarity * 100))`. -/
def calculateTextSimilarity (embed : String → String → Except Unit ℚ)
    (text1 text2 : String) : ℚ :=
  if text1 = "" ∨ text2 = "" then 0
  else if text1 = text2 then 100
  else
    match embed text1 text2 with
    | .error _ => 0
    | .ok similarity => max 0 (min 100 (similarity * 100))

/-- Source: `aiIcd.filter((_, i) => p(aiCodes[i]))` — filtering one list by a
predicate evaluated on the same-index element of a parallel list. -/
def filterWithKeys (orig keys : List String) (p : String → Bool) :
    List String :=
  ((orig.zip keys).filter (fun x => p x.2)).map Prod.fst

/-- Size of `new Set([...aiCodes, ...docCodes])`: the number of distinct
elements of the concatenation. -/
def icdUnionSize (aiCodes docCodes : List String) : ℕ :=
  ((aiCodes ++ docCodes).dedup).length

/-- Source: `aiCodes.filter(c => docCodes.includes(c))`. -/
def icdIntersection (aiCodes docCodes : List String) : List String :=
  aiCodes.filter (fun c => docCodes.contains c)

/-- Source: `union.size === 0 ? 100 : (intersection.length / union.size) * 100`. -/
def icdScore (aiCodes docCodes : List String) : ℚ :=
  if icdUnionSize aiCodes docCodes = 0 then 100
  else ((icdIntersection aiCodes docCodes).length : ℚ) /
    (icdUnionSize aiCodes docCodes : ℚ) * 100

/-- Rounded per-field scores of the returned `soapMatch` record. -/
structure SoapMatch where
  subjective : ℤ
  objective : ℤ
  assessment : ℤ
  plan : ℤ
deriving DecidableEq, Repr

/-- The returned `icdMatch` record. -/
structure IcdMatch where
  exactMatches : List String
  aiOnly : List String
  doctorOnly : List String
  score : ℤ
deriving DecidableEq, Repr

/-- Source: `ComparisonResult` interface (scores rounded before return). -/
structure ComparisonResult where
  matchScore : ℤ
  soapMatch : SoapMatch
  icdMatch : IcdMatch
  differences : List String
deriving DecidableEq, Repr

/-- Source: `compareMedicalResults`.  The sequential `differences.push`
calls become list concatenation in execution order. -/
def compareMedicalResults (embed : String → String → Except Unit ℚ)
    (aiSoap doctorSoap : SoapNote) (aiIcd doctorIcd : List String) :
    ComparisonResult :=
  let simSubjective := calculateTextSimilarity embed aiSoap.subjective doctorSoap.subjective
  let simObjective := calculateTextSimilarity embed aiSoap.objective doctorSoap.objective
  let simAssessment := calculateTextSimilarity embed aiSoap.assessment doctorSoap.assessment
  let simPlan := calculateTextSimilarity embed aiSoap.plan doctorSoap.plan
  let aiCodes := aiIcd.map cleanCode
  let docCodes := doctorIcd.map cleanCode
  let exactMatches := filterWithKeys aiIcd aiCodes (fun c => docCodes.contains c)
  let aiOnly := filterWithKeys aiIcd aiCodes (fun c => !docCodes.contains c)
  let doctorOnly := filterWithKeys doctorIcd docCodes (fun c => !aiCodes.contains c)
  let icd := icdScore aiCodes docCodes
  let matchScore :=
    simAssessment * 0.3 + simPlan * 0.3 + icd * 0.3 +
      (simSubjective + simObjective) / 2 * 0.1
  let differences :=
    (if simAssessment < 80 then ["Discrepancy in Assessment"] else []) ++
    (if simPlan < 80 then ["Discrepancy in Treatment Plan"] else []) ++
    (if aiOnly.length > 0 then
      ["AI suggested extra codes: " ++
        String.intercalate ", " (aiOnly.map cleanCode)] else []) ++
    (if doctorOnly.length > 0 then
      ["Doctor added codes: " ++
        String.intercalate ", " (doctorOnly.map cleanCode)] else [])
  { matchScore := jsRound matchScore
    soapMatch :=
      { subjective := jsRound simSubjective
        objective := jsRound simObjective
        assessment := jsRound simAssessment
        plan := jsRound simPlan }
    icdMatch :=
      { exactMatches := exactMatches
        aiOnly := aiOnly
        doctorOnly := doctorOnly
        score := jsRound icd }
    differences := differences }

/-! ## JSON values and JavaScript coercions

The LLM responses are parsed with `JSON.parse`; the parsed value is modelled
by `Json`.  JSON numbers are modelled as integers: no code path or claim
depends on fractional numeric payloads. -/

inductive Json where
  | str (s : String)
  | num (n : ℤ)
  | bool (b : Bool)
  | null
  | arr (xs : List Json)
  | obj (fields : List (String × Json))

/-- JS property read `v[k]`: a lookup on an object, `undefined` (here
`none`) on any other non-null value.  Reading a property of `null` throws in
JS; callers model that case separately. -/
def jsonLookup (j : Json) (k : String) : Option Json :=
  match j with
  | .obj fields => (fields.find? (fun f => f.1 = k)).map Prod.snd
  | _ => none

/-- JS truthiness of a parsed JSON value (`NaN` cannot arise from
`JSON.parse`). -/
def jsTruthy : Json → Bool
  | .str s => s ≠ ""
  | .num n => n ≠ 0
  | .bool b => b
  | .null => false
  | .arr _ => true
  | .obj _ => true

/-- JS `a || b` where `a` may be `undefined` (modelled as `none`). -/
def jsOrElse (a : Option Json) (b : Json) : Json :=
  match a with
  | some v => if jsTruthy v then v else b
  | none => b

/-- JS `String(v)` coercion on a parsed JSON value (arrays stringify as
their comma-joined elements, objects as `"[object Object]"`; the one
divergence from JS is that a `null` nested inside an array renders here as
`"null"` where `Array.prototype.join` renders it empty — no claim touches
nested arrays). -/
def jsToString : Json → String
  | .str s => s
  | .num n => toString n
  | .bool true => "true"
  | .bool false => "false"
  | .null => "null"
  | .arr xs => String.intercalate "," (xs.attach.map (fun x => jsToString x.1))
  | .obj _ => "[object Object]"
decreasing_by
  have h := List.sizeOf_lt_of_mem x.2
  simp only [Json.arr.sizeOf_spec]
  omega

/-! ## Agent pipeline (`state.ts`, `nodes.ts`, graph module) -/

/-- Source: `AgentState` interface in `state.ts`.  `refs` is the source's
`references` channel. -/
structure AgentState where
  transcript : String
  soap : SoapNote
  icdCodes : List String
  medicalAdvice : String
  refs : List String
deriving DecidableEq, Repr

/-- Read a SOAP field off the parsed scribe JSON.  The source casts the
parsed object to `SoapNote` unchecked and the graph's `soap` channel reducer
(`y ? {...x, ...y} : x` over an all-empty default) fills missing fields with
`""`; a non-string field value is coerced when later interpolated into
prompts, so it is normalized here with `jsToString`. -/
def jsGetSoapField (j : Json) (k : String) : String :=
  match jsonLookup j k with
  | some v => jsToString v
  | none => ""

/-- The sentinel note of the scribe catch block:
`{ subjective: "", objective: "", assessment: "", plan: "Error generating SOAP note" }`. -/
def scribeErrorNote : SoapNote :=
  { subjective := "", objective := "", assessment := ""
    plan := "Error generating SOAP note" }

/-- Source: `scribeNode`.  The oracle `llm` is the chat-completion call
together with `JSON.parse` of its content — both run inside the node's
single try block, so either failing is `Except.error`.  The node catches
every failure and returns the sentinel note; it never rejects. -/
def scribeNode (llm : Except Unit Json) (_state : AgentState) : SoapNote :=
  match llm with
  | .error _ => scribeErrorNote
  | .ok parsed =>
    { subjective := jsGetSoapField parsed "subjective"
      objective := jsGetSoapField parsed "objective"
      assessment := jsGetSoapField parsed "assessment"
      plan := jsGetSoapField parsed "plan" }

/-- The sentinel code list of the coder catch block. -/
def icdErrorCodes : List String := ["Error retrieving ICD codes"]

/-- Source: `icdNode`.  Oracle as in `scribeNode`.  The normalization is
`Array.isArray(parsed) ? parsed : (parsed.codes || parsed.icd_codes || [])`
followed by `Array.isArray(codes) ? codes.map(String) : []`.  When the
content parses to JSON `null`, the property read `parsed.codes` throws a
`TypeError`, which the same catch block turns into the sentinel list. -/
def icdNode (llm : Except Unit Json) (_state : AgentState) : List String :=
  match llm with
  | .error _ => icdErrorCodes
  | .ok parsed =>
    match parsed with
    | .arr xs => xs.map jsToString
    | .null => icdErrorCodes
    | _ =>
      match jsOrElse (jsonLookup parsed "codes")
        (jsOrElse (jsonLookup parsed "icd_codes") (.arr [])) with
      | .arr xs => xs.map jsToString
      | _ => []

/-- A retrieved document: page content plus the `source` field of its
metadata (the only metadata field the pipeline reads). -/
structure RagDocument where
  pageContent : String
  source : Option String
deriving DecidableEq, Repr

/-- JS `s.replace(pat, rep)` with a string pattern: replace the first
occurrence only (`pat` is always the non-empty literal `".md"` here). -/
def replaceFirst (s pat rep : String) : String :=
  match s.splitOn pat with
  | [] => s
  | [x] => x
  | x :: y :: rest => x ++ rep ++ String.intercalate pat (y :: rest)

/-- Source: `(d.metadata.source || "Unknown Source").replace(".md", "")`. -/
def referenceOfDoc (d : RagDocument) : String :=
  replaceFirst
    (match d.source with
     | some s => if s = "" then "Unknown Source" else s
     | none => "Unknown Source")
    ".md" ""

/-- The fields `expertNode` contributes to the state. -/
structure ExpertResult where
  medicalAdvice : String
  refs : List String
deriving DecidableEq, Repr

/-- Source: `expertNode`.  `retrieve` abstracts
`initialize()` + `retriever.invoke(...)` (either throwing rejects the node),
`llm` the chat-completion call (its possibly-missing content is the
`content || ""` fallback, folded into the oracle's string).  No try/catch
anywhere: every failure propagates to the graph invocation. -/
def expertNode (retrieve : Except Unit (List RagDocument))
    (llm : Except Unit String) (_state : AgentState) :
    Except Unit ExpertResult := do
  let docs ← retrieve
  let refs := docs.map referenceOfDoc
  let content ← llm
  pure { medicalAdvice := content, refs := refs }

/-- Source: the compiled `StateGraph` — `START → scribe → {icd, expert} → END`
with last-write-wins channel reducers.  `scribeNode` and `icdNode` never
reject, so their results always merge; `expertNode`'s rejection rejects the
whole invocation. -/
def runMedicalAgentGraph (scribeLlm icdLlm : Except Unit Json)
    (retrieve : Except Unit (List RagDocument)) (expertLlm : Except Unit String)
    (transcript : String) : Except Unit AgentState := do
  let st0 : AgentState :=
    { transcript := transcript
      soap := { subjective := "", objective := "", assessment := "", plan := "" }
      icdCodes := [], medicalAdvice := "", refs := [] }
  let soap := scribeNode scribeLlm st0
  let st1 := { st0 with soap := soap }
  let icdCodes := icdNode icdLlm st1
  let expert ← expertNode retrieve expertLlm st1
  pure { st1 with icdCodes := icdCodes
                  medicalAdvice := expert.medicalAdvice
                  refs := expert.refs }

/-! ## Speaker attribution (`app/api/stt/route.tsx`) -/

/-- One segment as handed to `detectSpeakerRoleByContent`
(`{ role, raw_text, start, end }`). -/
structure Segment where
  start : ℚ
  stop : ℚ
  role : String
  raw_text : String
deriving DecidableEq, Repr

/-- One `{ index, role }` entry of the parsed LLM response array. -/
structure RoleAssignment where
  index : ℤ
  role : String
deriving DecidableEq, Repr

/-- The regex search `responseText.match(/\[[\s\S]*\]/)`: the leftmost,
greedy match runs from the first `'['` to the last `']'` of the whole
string, and a match exists iff some `']'` occurs after the first `'['`. -/
def extractJsonArray (s : String) : Option String :=
  let cs := s.data
  let i := cs.findIdx (fun c => c = '[')
  let j := cs.length - 1 - cs.reverse.findIdx (fun c => c = ']')
  if (']' ∈ cs) ∧ i < j then String.mk ((cs.drop i).take (j - i + 1)) else none

/-- Source: `segments.map((seg, i) => ...)` — replace the role of the
segment at index `i` by the role of the first returned assignment whose
`index` equals `i`, keeping the segment otherwise; `i0` is the index of the
head of the remaining list. -/
def updateRolesFrom (roleAssignments : List RoleAssignment) (i0 : ℕ) :
    List Segment → List Segment
  | [] => []
  | seg :: rest =>
    (match roleAssignments.find? (fun r => r.index = (i0 : ℤ)) with
     | some a => { seg with role := a.role }
     | none => seg) :: updateRolesFrom roleAssignments (i0 + 1) rest

/-- Source: `detectSpeakerRoleByContent`.  `llm` is the chat-completion call
(`Except.error` = throw, content-or-`''` folded into the string); `parse` is
`JSON.parse` on the matched array text followed by the untyped uses of the
elements, `none` standing for any throw inside the try block (malformed
JSON, or a `TypeError` on an element property read), which the catch block
turns into the unchanged input.  Every failure path returns the input
segments unchanged. -/
def detectSpeakerRoleByContent (llm : Except Unit String)
    (parse : String → Option (List RoleAssignment))
    (segments : List Segment) : List Segment :=
  if segments.length = 0 then segments
  else
    match llm with
    | .error _ => segments
    | .ok responseText =>
      match extractJsonArray responseText with
      | none => segments
      | some matched =>
        match parse matched with
        | none => segments
        | some roleAssignments => updateRolesFrom roleAssignments 0 segments

/-! ## Knowledge retriever (`lib/rag/vectorStore.ts`)

The store contents are the list of indexed documents; the surrounding
environment (the on-disk cache, the knowledge-base directory and the
chunking of the external text splitter) is an oracle record.  File-system
reads inside `seed` are modelled as already-read `(name, content)` pairs. -/

/-- Environment of `MedicalVectorStore.initialize`: `readDb` is
`fs.readFile` + `JSON.parse` of the cached store (its `texts`/`metadatas`
fields, keeping of each metadata object only the `source` field the code
ever reads); `files` the knowledge-base directory listing with contents;
`splitDocuments` the external `RecursiveCharacterTextSplitter`. -/
structure VectorStoreEnv where
  readDb : Except Unit (List String × List (Option String))
  files : List (String × String)
  splitDocuments : List RagDocument → List RagDocument

/-- Source: `seed()` — keep the `.md` files as documents with their file
name as metadata source, and index their split chunks; with no documents
the store is left as the empty store created just before the call. -/
def seedStore (env : VectorStoreEnv) : List RagDocument :=
  let docs := (env.files.filter (fun f => f.1.endsWith ".md")).map
    (fun f => { pageContent := f.2, source := some f.1 : RagDocument })
  if docs.length = 0 then [] else env.splitDocuments docs

/-- Source: `MedicalVectorStore.initialize()`.  The state is
`this.store` (`none` = not yet initialized).  A non-null store returns
immediately; otherwise the store is rehydrated from the on-disk cache
(`MemoryVectorStore.fromTexts` pairs texts with metadatas), and if that read
fails the catch block creates an empty store and seeds it. -/
def vectorStoreInitialize (env : VectorStoreEnv)
    (store : Option (List RagDocument)) : Option (List RagDocument) :=
  match store with
  | some _ => store
  | none =>
    match env.readDb with
    | .ok td =>
      some ((td.1.zip td.2).map
        (fun tm => { pageContent := tm.1, source := tm.2 : RagDocument }))
    | .error _ => some (seedStore env)

/-- Source: `getRetriever()` — throws when the store is uninitialized,
otherwise retrieval ranges over the indexed documents. -/
def getRetriever (store : Option (List RagDocument)) :
    Except Unit (List RagDocument) :=
  match store with
  | some docs => .ok docs
  | none => .error ()

/-! ## Shared concrete instances and helper lemmas -/

/-- An embedding oracle whose external call always fails. -/
def failingEmbed : String → String → Except Unit ℚ := fun _ _ => .error ()

/-- A SOAP note with every field empty. -/
def blankNote : SoapNote :=
  { subjective := "", objective := "", assessment := "", plan := "" }

theorem calculateTextSimilarity_nonneg (embed : String → String → Except Unit ℚ)
    (t1 t2 : String) : 0 ≤ calculateTextSimilarity embed t1 t2 := by
  unfold calculateTextSimilarity
  split
  · exact le_refl 0
  · split
    · norm_num
    · split
      · exact le_refl 0
      · exact le_max_left 0 _

theorem calculateTextSimilarity_le_100 (embed : String → String → Except Unit ℚ)
    (t1 t2 : String) : calculateTextSimilarity embed t1 t2 ≤ 100 := by
  unfold calculateTextSimilarity
  split
  · norm_num
  · split
    · exact le_refl 100
    · split
      · norm_num
      · exact max_le (by norm_num) (min_le_left 100 _)

theorem icdScore_nonneg (aiCodes docCodes : List String) :
    0 ≤ icdScore aiCodes docCodes := by
  unfold icdScore
  split
  · norm_num
  · positivity

theorem icdScore_le_100_of_nodup (aiCodes docCodes : List String)
    (h : aiCodes.Nodup) : icdScore aiCodes docCodes ≤ 100 := by
  unfold icdScore
  split
  · exact le_refl 100
  · rename_i hu
    have hnodup : (icdIntersection aiCodes docCodes).Nodup :=
      List.Nodup.filter _ h
    have hsub : (icdIntersection aiCodes docCodes).toFinset ⊆
        (aiCodes ++ docCodes).toFinset := by
      intro x hx
      rw [List.mem_toFinset] at hx ⊢
      exact List.mem_append_left _ (List.mem_of_mem_filter hx)
    have hlen : (icdIntersection aiCodes docCodes).length ≤
        icdUnionSize aiCodes docCodes := by
      have h1 := List.toFinset_card_of_nodup hnodup
      have h2 := Finset.card_le_card hsub
      have h3 := List.card_toFinset (aiCodes ++ docCodes)
      unfold icdUnionSize
      omega
    have hupos : (0 : ℚ) < (icdUnionSize aiCodes docCodes : ℚ) := by
      have : 0 < icdUnionSize aiCodes docCodes := Nat.pos_of_ne_zero hu
      exact_mod_cast this
    have hdiv : ((icdIntersection aiCodes docCodes).length : ℚ) /
        (icdUnionSize aiCodes docCodes : ℚ) ≤ 1 := by
      rw [div_le_one hupos]
      exact_mod_cast hlen
    calc ((icdIntersection aiCodes docCodes).length : ℚ) /
          (icdUnionSize aiCodes docCodes : ℚ) * 100
        ≤ 1 * 100 := by
          exact mul_le_mul_of_nonneg_right hdiv (by norm_num)
      _ = 100 := by norm_num

theorem filterWithKeys_map (l : List String) (f : String → String)
    (p : String → Bool) :
    filterWithKeys l (l.map f) p = l.filter (fun a => p (f a)) := by
  induction l with
  | nil => rfl
  | cons x xs ih =>
    unfold filterWithKeys at ih ⊢
    simp only [List.map_cons, List.zip_cons_cons, List.filter_cons]
    by_cases h : p (f x)
    · simp [h, ih]
    · simp [h, ih]

theorem jsRound_nonneg {x : ℚ} (h : 0 ≤ x) : 0 ≤ jsRound x := by
  unfold jsRound
  exact Int.le_floor.mpr (by push_cast; linarith)

theorem jsRound_le_100 {x : ℚ} (h : x ≤ 100) : jsRound x ≤ 100 := by
  unfold jsRound
  have h1 : ⌊x + 1/2⌋ ≤ ⌊(201/2 : ℚ)⌋ := Int.floor_le_floor (by linarith)
  have h2 : ⌊(201/2 : ℚ)⌋ = 100 := by norm_num
  omega

theorem updateRolesFrom_length (roleAssignments : List RoleAssignment)
    (i0 : ℕ) (segments : List Segment) :
    (updateRolesFrom roleAssignments i0 segments).length = segments.length := by
  induction segments generalizing i0 with
  | nil => rfl
  | cons seg rest ih =>
    unfold updateRolesFrom
    simp only [List.length_cons, ih]

theorem updateRolesFrom_getD (roleAssignments : List RoleAssignment)
    (i0 i : ℕ) (segments : List Segment) (d : Segment)
    (h : ∀ a ∈ roleAssignments, a.index ≠ ((i0 + i : ℕ) : ℤ)) :
    (updateRolesFrom roleAssignments i0 segments).getD i d =
      segments.getD i d := by
  induction segments generalizing i0 i with
  | nil => rfl
  | cons seg rest ih =>
    unfold updateRolesFrom
    cases i with
    | zero =>
      have hfind : roleAssignments.find?
          (fun r => decide (r.index = (i0 : ℤ))) = none := by
        rw [List.find?_eq_none]
        intro a ha
        simpa using h a ha
      simp only [hfind, List.getD_cons_zero]
    | succ k =>
      simp only [List.getD_cons_succ]
      refine ih (i0 + 1) k ?_
      intro a ha
      have := h a ha
      intro hc
      apply this
      rw [hc]
      push_cast
      ring

/-! ## Claim theorems -/

/-- C1 counterexample: the claim says comparing any string with itself
yields 100, but the implementation checks emptiness before identity, so the
empty string compared with itself yields 0, not 100. -/
theorem calculateTextSimilarity_self_empty_not_100 :
    ¬ calculateTextSimilarity (fun _ _ => Except.ok 0) "" "" = 100 := by
  norm_num [calculateTextSimilarity]

/-- C1 (amended): for every embedding oracle, comparing a NON-EMPTY string
with itself yields exactly 100, and any comparison in which either side is
the empty string yields exactly 0 (in particular, the empty string compared
with itself yields 0, not 100). -/
theorem calculateTextSimilarity_self_and_empty
    (embed : String → String → Except Unit ℚ) (s t : String) :
    (s ≠ "" → calculateTextSimilarity embed s s = 100) ∧
    ((s = "" ∨ t = "") → calculateTextSimilarity embed s t = 0) := by
  constructor
  · intro hs
    unfold calculateTextSimilarity
    rw [if_neg (by simp [hs]), if_pos rfl]
  · intro hst
    unfold calculateTextSimilarity
    rw [if_pos hst]

/-- C1 witness: the amended theorem applied at `"ab"` and the empty
string. -/
theorem calculateTextSimilarity_self_and_empty_witness :
    calculateTextSimilarity (fun _ _ => Except.ok 0) "ab" "ab" = 100 ∧
    calculateTextSimilarity (fun _ _ => Except.ok 0) "ab" "" = 0 :=
  ⟨(calculateTextSimilarity_self_and_empty (fun _ _ => Except.ok 0) "ab" "ab").1
      (by decide),
   (calculateTextSimilarity_self_and_empty (fun _ _ => Except.ok 0) "ab" "").2
      (Or.inr rfl)⟩

/-- C9: if the external embedding call fails, `calculateTextSimilarity`
catches the error and returns 0, so a comparison with a failed embedding
backend still completes and scores every non-identical field pair as 0
(identical non-empty pairs short-circuit to 100 before the call). -/
theorem calculateTextSimilarity_embed_failure
    (embed : String → String → Except Unit ℚ) (t1 t2 : String)
    (hfail : embed t1 t2 = Except.error ()) (hne : t1 ≠ t2) :
    calculateTextSimilarity embed t1 t2 = 0 := by
  unfold calculateTextSimilarity
  by_cases h : t1 = "" ∨ t2 = ""
  · rw [if_pos h]
  · rw [if_neg h, if_neg hne, hfail]

/-- C9 witness: the theorem applied to distinct non-empty strings with the
always-failing embedding oracle. -/
theorem calculateTextSimilarity_embed_failure_witness :
    calculateTextSimilarity failingEmbed "a" "b" = 0 :=
  calculateTextSimilarity_embed_failure failingEmbed "a" "b" rfl (by decide)

/-- C10: `exactMatches` and `aiOnly` are the order-preserving partition of
the original AI code list by whether the normalized code occurs among the
normalized doctor codes, and `doctorOnly` is the sublist of original doctor
codes whose normalized code occurs among no normalized AI code; original
unnormalized strings are preserved. -/
theorem compareMedicalResults_icd_partition
    (embed : String → String → Except Unit ℚ) (aiSoap doctorSoap : SoapNote)
    (aiIcd doctorIcd : List String) :
    let r := compareMedicalResults embed aiSoap doctorSoap aiIcd doctorIcd
    r.icdMatch.exactMatches =
      aiIcd.filter (fun a => (doctorIcd.map cleanCode).contains (cleanCode a)) ∧
    r.icdMatch.aiOnly =
      aiIcd.filter (fun a => !(doctorIcd.map cleanCode).contains (cleanCode a)) ∧
    (r.icdMatch.exactMatches ++ r.icdMatch.aiOnly).Perm aiIcd ∧
    r.icdMatch.exactMatches.length + r.icdMatch.aiOnly.length = aiIcd.length ∧
    r.icdMatch.doctorOnly =
      doctorIcd.filter (fun a => !(aiIcd.map cleanCode).contains (cleanCode a)) := by
  intro r
  have hex : r.icdMatch.exactMatches =
      aiIcd.filter (fun a => (doctorIcd.map cleanCode).contains (cleanCode a)) := by
    show filterWithKeys aiIcd (aiIcd.map cleanCode)
        (fun c => (doctorIcd.map cleanCode).contains c) = _
    exact filterWithKeys_map aiIcd cleanCode _
  have hai : r.icdMatch.aiOnly =
      aiIcd.filter (fun a => !(doctorIcd.map cleanCode).contains (cleanCode a)) := by
    show filterWithKeys aiIcd (aiIcd.map cleanCode)
        (fun c => !(doctorIcd.map cleanCode).contains c) = _
    exact filterWithKeys_map aiIcd cleanCode _
  have hdoc : r.icdMatch.doctorOnly =
      doctorIcd.filter (fun a => !(aiIcd.map cleanCode).contains (cleanCode a)) := by
    show filterWithKeys doctorIcd (doctorIcd.map cleanCode)
        (fun c => !(aiIcd.map cleanCode).contains c) = _
    exact filterWithKeys_map doctorIcd cleanCode _
  have hperm : (r.icdMatch.exactMatches ++ r.icdMatch.aiOnly).Perm aiIcd := by
    rw [hex, hai]
    exact List.filter_append_perm _ aiIcd
  refine ⟨hex, hai, hperm, ?_, hdoc⟩
  have := hperm.length_eq
  simpa using this

/-- C7: `initialize()` is idempotent — once one call has completed, the
store is non-null, a further call returns without rebuilding, and the
retrievable document set is unchanged (no duplicate corpus ingestion). -/
theorem vectorStoreInitialize_idempotent (env : VectorStoreEnv)
    (store : Option (List RagDocument)) :
    vectorStoreInitialize env (vectorStoreInitialize env store) =
      vectorStoreInitialize env store ∧
    (vectorStoreInitialize env store).isSome = true ∧
    getRetriever (vectorStoreInitialize env (vectorStoreInitialize env store)) =
      getRetriever (vectorStoreInitialize env store) := by
  have h : (vectorStoreInitialize env store).isSome = true := by
    unfold vectorStoreInitialize
    cases store with
    | some docs => rfl
    | none =>
      cases henv : env.readDb with
      | ok td => rfl
      | error e => rfl
  have heq : vectorStoreInitialize env (vectorStoreInitialize env store) =
      vectorStoreInitialize env store := by
    rcases hs : vectorStoreInitialize env store with _ | docs
    · rw [hs] at h
      simp at h
    · rfl
  exact ⟨heq, h, by rw [heq]⟩

/-- C6: the coder stage returns exactly the one-element sentinel list (never
an empty list) on any LLM-call or parse failure, and on success accepts the
codes from a bare JSON array, from a `codes` key, or from an `icd_codes`
key, converting each element to a string. -/
theorem icdNode_error_policy (st : AgentState) (xs : List Json)
    (rest : List (String × Json)) :
    (icdNode (.error ()) st = ["Error retrieving ICD codes"] ∧
      (icdNode (.error ()) st).length = 1) ∧
    icdNode (.ok (.arr xs)) st = xs.map jsToString ∧
    icdNode (.ok (.obj (("codes", Json.arr xs) :: rest))) st =
      xs.map jsToString ∧
    icdNode (.ok (.obj [("icd_codes", Json.arr xs)])) st = xs.map jsToString := by
  refine ⟨⟨rfl, rfl⟩, rfl, ?_, ?_⟩
  · simp [icdNode, jsonLookup, jsOrElse, jsTruthy, List.find?]
  · simp [icdNode, jsonLookup, jsOrElse, jsTruthy, List.find?]

/-- C4: asymmetric failure policy of the pipeline — a failure in the
advisor stage (retrieval or its LLM call) rejects the whole graph
invocation, while a scribe-stage failure (LLM call or JSON parse) is caught
and the pipeline proceeds with the sentinel note whose subjective, objective
and assessment are empty and whose plan is the error marker string. -/
theorem medicalAgentGraph_failure_asymmetry
    (scribeLlm icdLlm : Except Unit Json) (expertLlm : Except Unit String)
    (docs : List RagDocument) (advice : String) (transcript : String) :
    runMedicalAgentGraph scribeLlm icdLlm (.error ()) expertLlm transcript =
      .error () ∧
    runMedicalAgentGraph scribeLlm icdLlm (.ok docs) (.error ()) transcript =
      .error () ∧
    (∃ st : AgentState,
      runMedicalAgentGraph (.error ()) icdLlm (.ok docs) (.ok advice)
          transcript = .ok st ∧
        st.soap = scribeErrorNote ∧
        st.soap.subjective = "" ∧ st.soap.objective = "" ∧
        st.soap.assessment = "" ∧
        st.soap.plan = "Error generating SOAP note") := by
  exact ⟨rfl, rfl, ⟨_, rfl, rfl, rfl, rfl, rfl, rfl⟩⟩

/-- C2 (amended): the returned `matchScore` always equals the fixed
weighted sum of the internal unrounded scores — assessment × 0.30 +
plan × 0.30 + code score × 0.30 + average(subjective, objective) × 0.10 —
rounded to the nearest integer; and it lies within [0,100] whenever the
normalized AI code list is duplicate-free (duplicate normalized AI codes
can push the code score, hence the matchScore, above 100). -/
theorem compareMedicalResults_matchScore
    (embed : String → String → Except Unit ℚ) (aiSoap doctorSoap : SoapNote)
    (aiIcd doctorIcd : List String) :
    (compareMedicalResults embed aiSoap doctorSoap aiIcd doctorIcd).matchScore =
      jsRound
        (calculateTextSimilarity embed aiSoap.assessment doctorSoap.assessment * 0.3 +
         calculateTextSimilarity embed aiSoap.plan doctorSoap.plan * 0.3 +
         icdScore (aiIcd.map cleanCode) (doctorIcd.map cleanCode) * 0.3 +
         (calculateTextSimilarity embed aiSoap.subjective doctorSoap.subjective +
          calculateTextSimilarity embed aiSoap.objective doctorSoap.objective) / 2 * 0.1) ∧
    ((aiIcd.map cleanCode).Nodup →
      0 ≤ (compareMedicalResults embed aiSoap doctorSoap aiIcd doctorIcd).matchScore ∧
      (compareMedicalResults embed aiSoap doctorSoap aiIcd doctorIcd).matchScore ≤ 100) := by
  refine ⟨rfl, fun hnodup => ?_⟩
  have ha1 := calculateTextSimilarity_nonneg embed aiSoap.assessment doctorSoap.assessment
  have ha2 := calculateTextSimilarity_le_100 embed aiSoap.assessment doctorSoap.assessment
  have hp1 := calculateTextSimilarity_nonneg embed aiSoap.plan doctorSoap.plan
  have hp2 := calculateTextSimilarity_le_100 embed aiSoap.plan doctorSoap.plan
  have hs1 := calculateTextSimilarity_nonneg embed aiSoap.subjective doctorSoap.subjective
  have hs2 := calculateTextSimilarity_le_100 embed aiSoap.subjective doctorSoap.subjective
  have ho1 := calculateTextSimilarity_nonneg embed aiSoap.objective doctorSoap.objective
  have ho2 := calculateTextSimilarity_le_100 embed aiSoap.objective doctorSoap.objective
  have hi1 := icdScore_nonneg (aiIcd.map cleanCode) (doctorIcd.map cleanCode)
  have hi2 := icdScore_le_100_of_nodup (aiIcd.map cleanCode)
    (doctorIcd.map cleanCode) hnodup
  have hms : (compareMedicalResults embed aiSoap doctorSoap aiIcd doctorIcd).matchScore =
      jsRound
        (calculateTextSimilarity embed aiSoap.assessment doctorSoap.assessment * 0.3 +
         calculateTextSimilarity embed aiSoap.plan doctorSoap.plan * 0.3 +
         icdScore (aiIcd.map cleanCode) (doctorIcd.map cleanCode) * 0.3 +
         (calculateTextSimilarity embed aiSoap.subjective doctorSoap.subjective +
          calculateTextSimilarity embed aiSoap.objective doctorSoap.objective) / 2 * 0.1) := rfl
  rw [hms]
  constructor
  · apply jsRound_nonneg
    nlinarith
  · apply jsRound_le_100
    nlinarith

/-- C2 witness: with a duplicate-free code list the amended bound holds at
a concrete input. -/
theorem compareMedicalResults_matchScore_witness :
    0 ≤ (compareMedicalResults failingEmbed blankNote blankNote
      ["K29.7"] ["I10"]).matchScore ∧
    (compareMedicalResults failingEmbed blankNote blankNote
      ["K29.7"] ["I10"]).matchScore ≤ 100 :=
  (compareMedicalResults_matchScore failingEmbed blankNote blankNote
    ["K29.7"] ["I10"]).2 (by decide)

/-- C2 counterexample: with duplicated AI codes (all SOAP fields empty, so
no embedding is consulted) the matchScore is 120, violating the claimed
[0,100] range. -/
theorem compareMedicalResults_matchScore_above_100 :
    ¬ ((compareMedicalResults failingEmbed blankNote blankNote
      ["A", "A", "A", "A"] ["A"]).matchScore ≤ 100) := by
  have hmap : (["A", "A", "A", "A"].map cleanCode) = ["A", "A", "A", "A"] := by
    decide
  have hmap1 : (["A"].map cleanCode) = ["A"] := by decide
  have hicd : icdScore ["A", "A", "A", "A"] ["A"] = 400 := by
    have h1 : icdIntersection ["A", "A", "A", "A"] ["A"] =
        ["A", "A", "A", "A"] := by decide
    have h2 : icdUnionSize ["A", "A", "A", "A"] ["A"] = 1 := by decide
    norm_num [icdScore, h1, h2]
  have hsim : calculateTextSimilarity failingEmbed "" "" = 0 := rfl
  have hms : (compareMedicalResults failingEmbed blankNote blankNote
      ["A", "A", "A", "A"] ["A"]).matchScore =
      jsRound
        (calculateTextSimilarity failingEmbed "" "" * 0.3 +
         calculateTextSimilarity failingEmbed "" "" * 0.3 +
         icdScore (["A", "A", "A", "A"].map cleanCode) (["A"].map cleanCode) * 0.3 +
         (calculateTextSimilarity failingEmbed "" "" +
          calculateTextSimilarity failingEmbed "" "") / 2 * 0.1) := rfl
  rw [hms, hsim, hmap, hmap1, hicd]
  norm_num [jsRound]

/-- C3: the code-overlap score is not set Jaccard — the intersection is
counted with multiplicity over the raw normalized AI list while the union
is de-duplicated, so `["A","A"]` against `["A"]` scores 200 instead of the
Jaccard value 100, escaping the [0,100] range. -/
theorem compareMedicalResults_icdScore_duplicates :
    (compareMedicalResults failingEmbed blankNote blankNote
      ["A", "A"] ["A"]).icdMatch.score = 200 ∧
    ¬ ((compareMedicalResults failingEmbed blankNote blankNote
      ["A", "A"] ["A"]).icdMatch.score ≤ 100) := by
  have hmap : (["A", "A"].map cleanCode) = ["A", "A"] := by decide
  have hmap1 : (["A"].map cleanCode) = ["A"] := by decide
  have hicd : icdScore ["A", "A"] ["A"] = 200 := by
    have h1 : icdIntersection ["A", "A"] ["A"] = ["A", "A"] := by decide
    have h2 : icdUnionSize ["A", "A"] ["A"] = 1 := by decide
    norm_num [icdScore, h1, h2]
  have hsc : (compareMedicalResults failingEmbed blankNote blankNote
      ["A", "A"] ["A"]).icdMatch.score =
      jsRound (icdScore (["A", "A"].map cleanCode) (["A"].map cleanCode)) := rfl
  rw [hsc, hmap, hmap1, hicd]
  norm_num [jsRound]

/-- A SOAP note whose four fields are all the non-empty string `"x"`, so
every per-field self comparison short-circuits to 100. -/
def xNote : SoapNote :=
  { subjective := "x", objective := "x", assessment := "x", plan := "x" }

/-- C8 counterexample: with the single AI code `"K29.7 - Gastritis"` and no
doctor codes, the difference note renders the normalized code `"K29.7"`,
not the verbatim input string, refuting the claim's "verbatim" wording. -/
theorem compareMedicalResults_differences_not_verbatim :
    (compareMedicalResults failingEmbed xNote xNote
      ["K29.7 - Gastritis"] []).differences =
      ["AI suggested extra codes: K29.7"] ∧
    (compareMedicalResults failingEmbed xNote xNote
      ["K29.7 - Gastritis"] []).differences ≠
      ["AI suggested extra codes: K29.7 - Gastritis"] := by
  have hsim : calculateTextSimilarity failingEmbed "x" "x" = 100 := by decide
  have hai : filterWithKeys ["K29.7 - Gastritis"]
      (["K29.7 - Gastritis"].map cleanCode)
      (fun c => !((([] : List String)).map cleanCode).contains c) =
      ["K29.7 - Gastritis"] := by decide
  have hdoc : filterWithKeys ([] : List String)
      (([] : List String).map cleanCode)
      (fun c => !((["K29.7 - Gastritis"].map cleanCode)).contains c) =
      ([] : List String) := by decide
  have hstr : "AI suggested extra codes: " ++
      String.intercalate ", " (["K29.7 - Gastritis"].map cleanCode) =
      "AI suggested extra codes: K29.7" := by decide
  have hd : (compareMedicalResults failingEmbed xNote xNote
      ["K29.7 - Gastritis"] []).differences =
      (if calculateTextSimilarity failingEmbed "x" "x" < 80 then
        ["Discrepancy in Assessment"] else []) ++
      (if calculateTextSimilarity failingEmbed "x" "x" < 80 then
        ["Discrepancy in Treatment Plan"] else []) ++
      (if (filterWithKeys ["K29.7 - Gastritis"]
          (["K29.7 - Gastritis"].map cleanCode)
          (fun c => !((([] : List String)).map cleanCode).contains c)).length > 0 then
        ["AI suggested extra codes: " ++
          String.intercalate ", " ((filterWithKeys ["K29.7 - Gastritis"]
            (["K29.7 - Gastritis"].map cleanCode)
            (fun c => !((([] : List String)).map cleanCode).contains c)).map
              cleanCode)] else []) ++
      (if (filterWithKeys ([] : List String)
          (([] : List String).map cleanCode)
          (fun c => !((["K29.7 - Gastritis"].map cleanCode)).contains c)).length
            > 0 then
        ["Doctor added codes: " ++
          String.intercalate ", " ((filterWithKeys ([] : List String)
            (([] : List String).map cleanCode)
            (fun c => !((["K29.7 - Gastritis"].map cleanCode)).contains c)).map
              cleanCode)] else []) := rfl
  have hfull : (compareMedicalResults failingEmbed xNote xNote
      ["K29.7 - Gastritis"] []).differences =
      ["AI suggested extra codes: K29.7"] := by
    rw [hd, hsim, hai, hdoc, hstr]
    norm_num
  exact ⟨hfull, by rw [hfull]; decide⟩

/-- C8 (amended): the difference-notes list is produced by fixed
deterministic rules with no LLM involved — flag the assessment when its
unrounded similarity is below 80, flag the plan when its unrounded
similarity is below 80, and list the AI-only and doctor-only codes in
normalized form (leading token, descriptive suffix stripped), joined with
", ". -/
theorem compareMedicalResults_differences_rules
    (embed : String → String → Except Unit ℚ) (aiSoap doctorSoap : SoapNote)
    (aiIcd doctorIcd : List String) :
    (compareMedicalResults embed aiSoap doctorSoap aiIcd doctorIcd).differences =
      (if calculateTextSimilarity embed aiSoap.assessment doctorSoap.assessment
          < 80 then ["Discrepancy in Assessment"] else []) ++
      (if calculateTextSimilarity embed aiSoap.plan doctorSoap.plan < 80 then
        ["Discrepancy in Treatment Plan"] else []) ++
      (if aiIcd.filter
          (fun a => !(doctorIcd.map cleanCode).contains (cleanCode a)) ≠ [] then
        ["AI suggested extra codes: " ++ String.intercalate ", "
          ((aiIcd.filter
            (fun a => !(doctorIcd.map cleanCode).contains (cleanCode a))).map
              cleanCode)] else []) ++
      (if doctorIcd.filter
          (fun a => !(aiIcd.map cleanCode).contains (cleanCode a)) ≠ [] then
        ["Doctor added codes: " ++ String.intercalate ", "
          ((doctorIcd.filter
            (fun a => !(aiIcd.map cleanCode).contains (cleanCode a))).map
              cleanCode)] else []) := by
  have hfk : filterWithKeys aiIcd (aiIcd.map cleanCode)
      (fun c => !(doctorIcd.map cleanCode).contains c) =
      aiIcd.filter (fun a => !(doctorIcd.map cleanCode).contains (cleanCode a)) :=
    filterWithKeys_map aiIcd cleanCode _
  have hfk2 : filterWithKeys doctorIcd (doctorIcd.map cleanCode)
      (fun c => !(aiIcd.map cleanCode).contains c) =
      doctorIcd.filter (fun a => !(aiIcd.map cleanCode).contains (cleanCode a)) :=
    filterWithKeys_map doctorIcd cleanCode _
  have hd : (compareMedicalResults embed aiSoap doctorSoap aiIcd
      doctorIcd).differences =
      (if calculateTextSimilarity embed aiSoap.assessment doctorSoap.assessment
          < 80 then ["Discrepancy in Assessment"] else []) ++
      (if calculateTextSimilarity embed aiSoap.plan doctorSoap.plan < 80 then
        ["Discrepancy in Treatment Plan"] else []) ++
      (if (filterWithKeys aiIcd (aiIcd.map cleanCode)
          (fun c => !(doctorIcd.map cleanCode).contains c)).length > 0 then
        ["AI suggested extra codes: " ++ String.intercalate ", "
          ((filterWithKeys aiIcd (aiIcd.map cleanCode)
            (fun c => !(doctorIcd.map cleanCode).contains c)).map cleanCode)]
        else []) ++
      (if (filterWithKeys doctorIcd (doctorIcd.map cleanCode)
          (fun c => !(aiIcd.map cleanCode).contains c)).length > 0 then
        ["Doctor added codes: " ++ String.intercalate ", "
          ((filterWithKeys doctorIcd (doctorIcd.map cleanCode)
            (fun c => !(aiIcd.map cleanCode).contains c)).map cleanCode)]
        else []) := rfl
  rw [hd, hfk, hfk2]
  simp only [gt_iff_lt, List.length_pos]

/-- C5: the speaker attributor is fail-soft — an LLM failure, a response
with no JSON array substring, or a parse failure all return the input
segments unchanged (role and text); on success the update touches only the
indexed segments, so an index missing from the parsed assignments keeps its
prior segment (in particular its prior role), and the segment count is
preserved.  The function is total: it never throws to its caller. -/
theorem detectSpeakerRole_fail_soft
    (parse1 parse : String → Option (List RoleAssignment))
    (segments : List Segment) (resp m : String)
    (assigns : List RoleAssignment) (i : ℕ) (d : Segment) :
    detectSpeakerRoleByContent (.error ()) parse1 segments = segments ∧
    (extractJsonArray resp = none →
      detectSpeakerRoleByContent (.ok resp) parse1 segments = segments) ∧
    detectSpeakerRoleByContent (.ok resp) (fun _ => none) segments = segments ∧
    (segments.length ≠ 0 → extractJsonArray resp = some m →
      parse m = some assigns →
      detectSpeakerRoleByContent (.ok resp) parse segments =
        updateRolesFrom assigns 0 segments) ∧
    (updateRolesFrom assigns 0 segments).length = segments.length ∧
    ((∀ a ∈ assigns, a.index ≠ (i : ℤ)) →
      (updateRolesFrom assigns 0 segments).getD i d = segments.getD i d) := by
  refine ⟨?_, ?_, ?_, ?_, updateRolesFrom_length assigns 0 segments, ?_⟩
  · unfold detectSpeakerRoleByContent
    split <;> rfl
  · intro h
    unfold detectSpeakerRoleByContent
    split
    · rfl
    · simp only [h]
  · unfold detectSpeakerRoleByContent
    split
    · rfl
    · cases hex : extractJsonArray resp <;> simp [hex]
  · intro h0 h1 h2
    unfold detectSpeakerRoleByContent
    rw [if_neg h0]
    simp only [h1, h2]
  · intro h
    exact updateRolesFrom_getD assigns 0 i segments d (by simpa using h)

/-- A sample segment for the C5 witness. -/
def sampleSegment : Segment :=
  { start := 0, stop := 1, role := "Role", raw_text := "hello" }

/-- A sample parse oracle for the C5 witness: it parses exactly the array
text `"[1]"` into one assignment targeting index 5. -/
def sampleParse : String → Option (List RoleAssignment) := fun s =>
  if s = "[1]" then some [{ index := 5, role := "Doctor" }] else none

/-- C5 witness: the fail-soft theorem applied at a response with no array
substring, and at a successfully parsed response whose only assignment
targets an absent index, leaving segment 0 unchanged. -/
theorem detectSpeakerRole_fail_soft_witness :
    detectSpeakerRoleByContent (.ok "no array here") sampleParse
      [sampleSegment] = [sampleSegment] ∧
    detectSpeakerRoleByContent (.ok "xx[1]yy") sampleParse [sampleSegment] =
      updateRolesFrom [{ index := 5, role := "Doctor" }] 0 [sampleSegment] ∧
    (updateRolesFrom [{ index := 5, role := "Doctor" }] 0
      [sampleSegment]).getD 0 sampleSegment =
      [sampleSegment].getD 0 sampleSegment :=
  ⟨(detectSpeakerRole_fail_soft sampleParse sampleParse [sampleSegment]
      "no array here" "[1]" [{ index := 5, role := "Doctor" }] 0
      sampleSegment).2.1 (by decide),
   (detectSpeakerRole_fail_soft sampleParse sampleParse [sampleSegment]
      "xx[1]yy" "[1]" [{ index := 5, role := "Doctor" }] 0
      sampleSegment).2.2.2.1 (by decide) (by decide) (by decide),
   (detectSpeakerRole_fail_soft sampleParse sampleParse [sampleSegment]
      "xx[1]yy" "[1]" [{ index := 5, role := "Doctor" }] 0
      sampleSegment).2.2.2.2.2 (by decide)⟩
